import Mathlib

/-!
# Wiring of the openshift-apiserver operator

A shallow embedding of `RunOperator` (`pkg/operator/starter.go`).  The function is a
straight-line wiring routine: it builds clients, informer factories and controllers,
seeds a version record, optionally registers a debug handler, starts the informer
factories, launches the controllers with `go`, and blocks on the context's `Done`
channel.  The embedding threads the list of effects performed by the goroutine that
executes `RunOperator` (in program order) and the way the call ends.

Everything the function obtains from outside (the `err` results of the constructors,
the ClusterOperator returned by the API server, the environment variables) is a field
of `World`; the package level constants it reads from other packages are fields of
`Pkg`.
-/

namespace Operator

/-! ## Data model -/

/-- A non-nil Go `error` value.  `isNotFound` is what `errors.IsNotFound` answers for it. -/
structure GoError where
  msg : String
  isNotFound : Bool
deriving DecidableEq, Repr

/-- The type `configv1.ObjectReference`. -/
structure ObjectReference where
  Group : String
  Resource : String
  Namespace : String
  Name : String
deriving DecidableEq, Repr

/-- The type `configv1.OperandVersion`: one entry of `ClusterOperator.Status.Versions`. -/
structure OperandVersion where
  Name : String
  Version : String
deriving DecidableEq, Repr

/-- The part of `configv1.ClusterOperator` that `RunOperator` reads: `Status.Versions`. -/
structure ClusterOperator where
  Versions : List OperandVersion
deriving DecidableEq, Repr

/-- Package level declarations that `RunOperator` reads and that live outside
`starter.go`: the four namespace constants of package `operatorclient` and the value
returned by `workloadcontroller.APIServiceReferences()`. -/
structure Pkg where
  GlobalUserSpecifiedConfigNamespace : String
  GlobalMachineSpecifiedConfigNamespace : String
  OperatorNamespace : String
  TargetNamespace : String
  APIServiceReferences : List ObjectReference
deriving DecidableEq, Repr

/-- Modelled from the spec: the version record behind `status.NewVersionGetter()`, whose
implementation is not part of `starter.go`.  The spec describes it as a mapping from
component name to version string with `SetVersion` last-write-wins per component and
`AllVersions` a snapshot read.  It is kept as an association list with at most one
entry per name. -/
abbrev VersionGetter := List (String × String)

/-- Modelled from the spec: `status.NewVersionGetter()`, the empty version record. -/
def NewVersionGetter : VersionGetter := []

/-- Modelled from the spec: `SetVersion(name, version)`, last write wins per name. -/
def VersionGetter.SetVersion (v : VersionGetter) (name version : String) : VersionGetter :=
  (name, version) :: v.filter (fun p => p.1 != name)

/-- Modelled from the spec: `AllVersions()`, the snapshot of the mapping. -/
def VersionGetter.AllVersions (v : VersionGetter) : List (String × String) := v

/-- The version recorded for `name`, if any. -/
def VersionGetter.get (v : VersionGetter) (name : String) : Option String :=
  (v.find? (fun p => p.1 == name)).map (fun p => p.2)

/-- How the cancellation signal of a context behaves over the life of the call. -/
inductive Cancellation
  | firedAtEntry
  | firesLater
  | never
deriving DecidableEq, Repr

/-- A `context.Context`: its identity and the behaviour of its `Done` channel. -/
structure Context where
  id : Nat
  cancellation : Cancellation
deriving DecidableEq, Repr

/-- The fields of `controllercmd.ControllerContext` whose value matters to the control
flow of `RunOperator`.  `Server` is `none` for a nil pointer.  The fields `KubeConfig`,
`ProtoKubeConfig` and `EventRecorder` are only passed on; they appear as `Arg.cfg`. -/
structure ControllerContext where
  Server : Option Nat
  Ctx : Context
deriving DecidableEq, Repr

/-- The construction steps of `RunOperator` that return an `err`, in source order. -/
inductive Step
  | kubeClient
  | dynamicClient
  | apiregistrationClient
  | operatorConfigClient
  | configClient
  | operatorClient
  | resourceSync
  | clusterOperatorGet
  | encryptionDeployer
  | encryptionControllers
deriving DecidableEq, Repr, Fintype

/-- Position of a step in the source. -/
def Step.index : Step → Nat
  | .kubeClient => 0
  | .dynamicClient => 1
  | .apiregistrationClient => 2
  | .operatorConfigClient => 3
  | .configClient => 4
  | .operatorClient => 5
  | .resourceSync => 6
  | .clusterOperatorGet => 7
  | .encryptionDeployer => 8
  | .encryptionControllers => 9

/-- What the outside world answers during one call of `RunOperator`. -/
structure World where
  /-- the `err` returned by each fallible step (`none` is nil) -/
  err : Step → Option GoError
  /-- the object returned by the ClusterOperator `Get` -/
  clusterOperator : ClusterOperator
  /-- the function `os.Getenv` -/
  getenv : String → String

/-- The error on which a step makes `RunOperator` return.  Every step returns on a
non-nil `err`, except the ClusterOperator lookup, which returns only on
`err != nil && !errors.IsNotFound(err)`. -/
def World.abortError (w : World) (s : Step) : Option GoError :=
  match s with
  | .clusterOperatorGet =>
    match w.err .clusterOperatorGet with
    | some e => if e.isNotFound then none else some e
    | none => none
  | s => w.err s

/-- Every construction step succeeds. -/
def World.constructionSucceeds (w : World) : Prop := ∀ s : Step, w.abortError s = none

/-- No step up to and including `s` makes `RunOperator` return. -/
def World.noAbortThrough (w : World) (s : Step) : Prop :=
  ∀ s' : Step, s'.index ≤ s.index → w.abortError s' = none

/-- The local variables of `RunOperator`. -/
inductive Var
  | kubeClient
  | migrationClientConfig
  | dynamicClientForMigration
  | apiregistrationv1Client
  | operatorConfigClient
  | configClient
  | operatorConfigInformers
  | kubeInformersForNamespaces
  | apiregistrationInformers
  | configInformers
  | operatorClient
  | dynamicInformers
  | resourceSyncController
  | debugHandler
  | revisionController
  | versionRecorder
  | clusterOperator
  | workloadController
  | finalizerController
  | configObserver
  | clusterOperatorStatus
  | nodeProvider
  | deployer
  | migrator
  | encryptionControllers
  | pruneController
  | configUpgradeableController
  | logLevelController
deriving DecidableEq, Repr

/-- An argument expression of a call made by `RunOperator`. -/
inductive Arg
  /-- a local variable -/
  | var (v : Var)
  /-- an accessor chain on a local variable, such as `kubeClient.CoreV1()` -/
  | sel (v : Var) (accessor : String)
  /-- the expression `kubeInformersForNamespaces.InformersFor(ns)` followed by `accessor` -/
  | informersFor (ns : String) (accessor : String)
  /-- the expression `v1helpers.CachedConfigMapGetter(kubeClient.CoreV1(), kubeInformersForNamespaces)` -/
  | cachedConfigMapGetter
  /-- the expression `v1helpers.CachedSecretGetter(kubeClient.CoreV1(), kubeInformersForNamespaces)` -/
  | cachedSecretGetter
  /-- the literal `OpenshiftDeploymentLatestRevisionClient` built from `operatorClient`
  and `operatorConfigClient.OperatorV1()` -/
  | latestRevisionClient
  /-- a field of `controllerConfig` that is passed on unchanged -/
  | cfg (field : String)
  /-- the variable `versionRecorder`, with the contents it has at the call -/
  | versions (v : VersionGetter)
  | str (s : String)
  | strs (l : List String)
  | nil
  /-- a duration, `n*time.Minute` -/
  | minutes (n : Nat)
  /-- the expression `operatorv1.GroupVersion.WithResource(r)` -/
  | withResource (r : String)
  /-- a slice of `revision.RevisionResource` given as (Name, Optional) -/
  | revisionResources (l : List (String × Bool))
  | objectRefs (l : List ObjectReference)
  /-- a literal `schema.GroupResource` -/
  | groupResource (group resource : String)
deriving DecidableEq, Repr

/-- The local variables an argument expression mentions. -/
def Arg.vars : Arg → List Var
  | .var v => [v]
  | .sel v _ => [v]
  | .informersFor _ _ => [.kubeInformersForNamespaces]
  | .cachedConfigMapGetter => [.kubeClient, .kubeInformersForNamespaces]
  | .cachedSecretGetter => [.kubeClient, .kubeInformersForNamespaces]
  | .latestRevisionClient => [.operatorClient, .operatorConfigClient]
  | .versions _ => [.versionRecorder]
  | _ => []

/-- The cancellation signal handed to a callee: `ctx.Done()` or `ctx` itself. -/
inductive Signal
  | done (ctx : Nat)
  | context (ctx : Nat)
deriving DecidableEq, Repr

/-- The context a signal belongs to. -/
def Signal.ctx : Signal → Nat
  | .done c => c
  | .context c => c

/-- The effects in the vocabulary of the specification.  `RunOperator` emits only the
ones the source performs. -/
inductive Event
  /-- the statement `lhs..., err := fn(args...)`, or `lhs := fn(args...)` with `err` nil
  when `fn` cannot fail -/
  | call (lhs : List Var) (fn : String) (args : List Arg) (err : Option GoError)
  /-- the assignment `target.field = value` -/
  | setField (target : Var) (field : String) (value : Nat)
  /-- the call `versionRecorder.SetVersion(name, version)` -/
  | setVersion (name version : String)
  /-- the call `Server.Handler.NonGoRestfulMux.Handle(path, handler)` -/
  | handle (server : Nat) (path : String) (handler : Var)
  /-- the call `factory.Start(stop)` -/
  | informerStart (factory : Var) (stop : Signal)
  /-- a wait for cache sync that completed with the given result -/
  | waitForCacheSync (synced : Bool)
  /-- the statement `go controller.Run(...)` with its worker count, if it takes one -/
  | goRun (controller : Var) (workers : Option Nat) (stop : Signal)
  /-- the receive `<-ctx.Done()` -/
  | recvDone (ctx : Nat)
  /-- creation of a new cancellation signal derived from `parent` -/
  | withCancel (parent : Nat)
  /-- triggering the cancellation signal of `ctx` -/
  | cancel (ctx : Nat)
deriving DecidableEq, Repr

/-- How a call of `RunOperator` ends: it returns an `error` (`none` is nil), or it stays
blocked in the final receive for ever. -/
inductive Outcome
  | returned (err : Option GoError)
  | blocked
deriving DecidableEq, Repr

/-- The observable behaviour of one call. -/
structure Run where
  trace : List Event
  outcome : Outcome
deriving DecidableEq, Repr

/-- The version record after lines 109-117: a fresh record, one `SetVersion` per entry
of `clusterOperator.Status.Versions` in order, then `SetVersion("operator", ...)`. -/
def seedVersions (w : World) : VersionGetter :=
  (w.clusterOperator.Versions.foldl (fun v version => v.SetVersion version.Name version.Version)
    NewVersionGetter).SetVersion "operator" (w.getenv "OPERATOR_IMAGE_VERSION")

/-- The value built by `fmt.Errorf("stopped")`. -/
def stopped : GoError := ⟨"stopped", false⟩

/-! ## The function -/

/-- The function `RunOperator` of `pkg/operator/starter.go`. -/
def RunOperator (pkg : Pkg) (controllerConfig : ControllerContext) (w : World) : Run :=
  let recorder := Arg.cfg "EventRecorder"
  let done := Signal.done controllerConfig.Ctx.id
  let t := [Event.call [.kubeClient] "kubernetes.NewForConfig" [.cfg "ProtoKubeConfig"]
    (w.err .kubeClient)]
  match w.err .kubeClient with
  | some err => ⟨t, .returned (some err)⟩
  | none =>
  let t := t ++ [
    Event.call [.migrationClientConfig] "dynamic.ConfigFor" [.cfg "KubeConfig"] none,
    Event.setField .migrationClientConfig "Burst" 40,
    Event.setField .migrationClientConfig "QPS" 30,
    Event.call [.dynamicClientForMigration] "dynamic.NewForConfig" [.var .migrationClientConfig]
      (w.err .dynamicClient)]
  match w.err .dynamicClient with
  | some err => ⟨t, .returned (some err)⟩
  | none =>
  let t := t ++ [Event.call [.apiregistrationv1Client] "apiregistrationclient.NewForConfig"
    [.cfg "ProtoKubeConfig"] (w.err .apiregistrationClient)]
  match w.err .apiregistrationClient with
  | some err => ⟨t, .returned (some err)⟩
  | none =>
  let t := t ++ [Event.call [.operatorConfigClient] "operatorv1client.NewForConfig"
    [.cfg "KubeConfig"] (w.err .operatorConfigClient)]
  match w.err .operatorConfigClient with
  | some err => ⟨t, .returned (some err)⟩
  | none =>
  let t := t ++ [Event.call [.configClient] "configv1client.NewForConfig"
    [.cfg "KubeConfig"] (w.err .configClient)]
  match w.err .configClient with
  | some err => ⟨t, .returned (some err)⟩
  | none =>
  let t := t ++ [
    Event.call [.operatorConfigInformers] "operatorv1informers.NewSharedInformerFactory"
      [.var .operatorConfigClient, .minutes 10] none,
    Event.call [.kubeInformersForNamespaces] "v1helpers.NewKubeInformersForNamespaces"
      [.var .kubeClient, .str "", .str pkg.GlobalUserSpecifiedConfigNamespace,
       .str pkg.GlobalMachineSpecifiedConfigNamespace, .str pkg.OperatorNamespace,
       .str pkg.TargetNamespace] none,
    Event.call [.apiregistrationInformers] "apiregistrationinformers.NewSharedInformerFactory"
      [.var .apiregistrationv1Client, .minutes 10] none,
    Event.call [.configInformers] "configinformers.NewSharedInformerFactory"
      [.var .configClient, .minutes 10] none,
    Event.call [.operatorClient, .dynamicInformers]
      "genericoperatorclient.NewClusterScopedOperatorClient"
      [.cfg "KubeConfig", .withResource "openshiftapiservers"] (w.err .operatorClient)]
  match w.err .operatorClient with
  | some err => ⟨t, .returned (some err)⟩
  | none =>
  let t := t ++ [Event.call [.resourceSyncController, .debugHandler]
    "resourcesynccontroller.NewResourceSyncController"
    [.var .operatorClient, .var .kubeInformersForNamespaces, .cachedConfigMapGetter,
     .cachedSecretGetter, recorder] (w.err .resourceSync)]
  match w.err .resourceSync with
  | some err => ⟨t, .returned (some err)⟩
  | none =>
  let t := t ++ [
    Event.call [.revisionController] "revisioncontroller.NewRevisionController"
      [.str pkg.TargetNamespace, .nil, .revisionResources [("encryption-config", true)],
       .informersFor pkg.TargetNamespace "", .latestRevisionClient, .cachedConfigMapGetter,
       .cachedSecretGetter, recorder] none,
    -- don't change any versions until we sync
    Event.call [.versionRecorder] "status.NewVersionGetter" [] none,
    Event.call [.clusterOperator] "Get"
      [.sel .configClient "ConfigV1().ClusterOperators()", .str "openshift-apiserver"]
      (w.err .clusterOperatorGet)]
  let versionRecorder := NewVersionGetter
  match w.abortError .clusterOperatorGet with
  | some err => ⟨t, .returned (some err)⟩
  | none =>
  let t := t ++ w.clusterOperator.Versions.map
    (fun version => Event.setVersion version.Name version.Version)
  let versionRecorder := w.clusterOperator.Versions.foldl
    (fun v version => v.SetVersion version.Name version.Version) versionRecorder
  let t := t ++ [Event.setVersion "operator" (w.getenv "OPERATOR_IMAGE_VERSION")]
  let versionRecorder := versionRecorder.SetVersion "operator" (w.getenv "OPERATOR_IMAGE_VERSION")
  let t := t ++ [
    Event.call [.workloadController] "workloadcontroller.NewWorkloadController"
      [.str (w.getenv "IMAGE"), .str (w.getenv "OPERATOR_IMAGE"),
       .versions versionRecorder,
       .sel .operatorConfigInformers "Operator().V1().OpenShiftAPIServers()",
       .informersFor pkg.TargetNamespace "",
       .informersFor pkg.GlobalUserSpecifiedConfigNamespace "",
       .informersFor pkg.GlobalUserSpecifiedConfigNamespace "",
       .var .apiregistrationInformers,
       .var .configInformers,
       .sel .operatorConfigClient "OperatorV1()",
       .sel .configClient "ConfigV1()",
       .var .kubeClient,
       .sel .apiregistrationv1Client "ApiregistrationV1()",
       recorder] none,
    Event.call [.finalizerController] "NewFinalizerController"
      [.informersFor pkg.TargetNamespace "", .sel .kubeClient "CoreV1()", recorder] none,
    Event.call [.configObserver] "configobservercontroller.NewConfigObserver"
      [.informersFor pkg.TargetNamespace "", .var .operatorClient,
       .var .resourceSyncController, .var .operatorConfigInformers, .var .configInformers,
       recorder] none,
    Event.call [.clusterOperatorStatus] "status.NewClusterOperatorStatusController"
      [.str "openshift-apiserver",
       .objectRefs (
         [ ⟨"operator.openshift.io", "openshiftapiservers", "", "cluster"⟩,
           ⟨"", "namespaces", "", pkg.GlobalUserSpecifiedConfigNamespace⟩,
           ⟨"", "namespaces", "", pkg.GlobalMachineSpecifiedConfigNamespace⟩,
           ⟨"", "namespaces", "", pkg.OperatorNamespace⟩,
           ⟨"", "namespaces", "", pkg.TargetNamespace⟩ ]
         ++ pkg.APIServiceReferences),
       .sel .configClient "ConfigV1()",
       .sel .configInformers "Config().V1().ClusterOperators()",
       .var .operatorClient,
       .versions versionRecorder,
       recorder] none,
    Event.call [.nodeProvider] "DaemonSetNodeProvider"
      [.informersFor pkg.TargetNamespace "Apps().V1().DaemonSets()",
       .informersFor "" "Core().V1().Nodes()"] none,
    Event.call [.deployer] "encryptiondeployer.NewRevisionLabelPodDeployer"
      [.str "revision", .str pkg.TargetNamespace, .var .kubeInformersForNamespaces,
       .var .resourceSyncController, .sel .kubeClient "CoreV1()", .sel .kubeClient "CoreV1()",
       .var .nodeProvider] (w.err .encryptionDeployer)]
  match w.err .encryptionDeployer with
  | some err => ⟨t, .returned (some err)⟩
  | none =>
  let t := t ++ [
    Event.call [.migrator] "migrators.NewInProcessMigrator"
      [.var .dynamicClientForMigration, .sel .kubeClient "Discovery()"] none,
    Event.call [.encryptionControllers] "encryption.NewControllers"
      [.str pkg.TargetNamespace, .var .deployer, .var .migrator, .var .operatorClient,
       .sel .configClient "ConfigV1().APIServers()",
       .sel .configInformers "Config().V1().APIServers()",
       .var .kubeInformersForNamespaces, .sel .kubeClient "CoreV1()", recorder,
       .groupResource "route.openshift.io" "routes",
       .groupResource "oauth.openshift.io" "oauthaccesstokens",
       .groupResource "oauth.openshift.io" "oauthauthorizetokens"]
      (w.err .encryptionControllers)]
  match w.err .encryptionControllers with
  | some err => ⟨t, .returned (some err)⟩
  | none =>
  let t := t ++ [
    Event.call [.pruneController] "prune.NewPruneController"
      [.str pkg.TargetNamespace, .strs ["encryption-config-"], .sel .kubeClient "CoreV1()",
       .sel .kubeClient "CoreV1()", .var .kubeInformersForNamespaces, recorder] none,
    Event.call [.configUpgradeableController]
      "unsupportedconfigoverridescontroller.NewUnsupportedConfigOverridesController"
      [.var .operatorClient, recorder] none,
    Event.call [.logLevelController] "loglevel.NewClusterOperatorLoggingController"
      [.var .operatorClient, recorder] none]
  let t := match controllerConfig.Server with
    | some server => t ++ [Event.handle server "/debug/controllers/resourcesync" .debugHandler]
    | none => t
  let t := t ++ [
    Event.informerStart .operatorConfigInformers done,
    Event.informerStart .kubeInformersForNamespaces done,
    Event.informerStart .apiregistrationInformers done,
    Event.informerStart .configInformers done,
    Event.informerStart .dynamicInformers done,
    Event.goRun .workloadController (some 1) done,
    Event.goRun .configObserver (some 1) done,
    Event.goRun .clusterOperatorStatus (some 1) done,
    Event.goRun .finalizerController (some 1) done,
    Event.goRun .resourceSyncController (some 1) done,
    Event.goRun .revisionController (some 1) (Signal.context controllerConfig.Ctx.id),
    Event.goRun .encryptionControllers none done,
    Event.goRun .pruneController (some 1) done,
    Event.goRun .configUpgradeableController (some 1) (Signal.context controllerConfig.Ctx.id),
    Event.goRun .logLevelController (some 1) (Signal.context controllerConfig.Ctx.id),
    Event.recvDone controllerConfig.Ctx.id]
  ⟨t, match controllerConfig.Ctx.cancellation with
    | .never => .blocked
    | _ => .returned (some stopped)⟩

/-! ## Observations on a trace -/

/-- The statement assigns the variable `v`. -/
def Event.constructs (v : Var) : Event → Bool
  | .call lhs _ _ _ => decide (v ∈ lhs)
  | _ => false

/-- The statement is a call that mentions the variable `v` among its arguments. -/
def Event.receives (v : Var) : Event → Bool
  | .call _ _ args _ => args.any (fun a => decide (v ∈ a.vars))
  | _ => false

def Event.isCall : Event → Bool
  | .call _ _ _ _ => true
  | _ => false

def Event.isSetVersion : Event → Bool
  | .setVersion _ _ => true
  | _ => false

def Event.isHandle : Event → Bool
  | .handle _ _ _ => true
  | _ => false

def Event.isInformerStart : Event → Bool
  | .informerStart _ _ => true
  | _ => false

def Event.isWaitForCacheSync : Event → Bool
  | .waitForCacheSync _ => true
  | _ => false

def Event.isGoRun : Event → Bool
  | .goRun _ _ _ => true
  | _ => false

/-- The statement creates or triggers a cancellation signal. -/
def Event.touchesCancellation : Event → Bool
  | .withCancel _ => true
  | .cancel _ => true
  | _ => false

/-- The cancellation signal an effect observes, if it observes one. -/
def Event.signal : Event → Option Signal
  | .informerStart _ s => some s
  | .goRun _ _ s => some s
  | .recvDone c => some (.done c)
  | _ => none

/-- The controller launches of a trace, in order: controller and worker count. -/
def launches (tr : List Event) : List (Var × Option Nat) :=
  tr.filterMap (fun e => match e with
    | .goRun c n _ => some (c, n)
    | _ => none)

/-- The informer factories started in a trace, in order. -/
def starts (tr : List Event) : List Var :=
  tr.filterMap (fun e => match e with
    | .informerStart f _ => some f
    | _ => none)

/-- The version record an argument carries, if it is `versionRecorder`. -/
def Arg.versionRecord : Arg → Option VersionGetter
  | .versions v => some v
  | _ => none

/-- The version record handed to each call of `fn`, in order. -/
def versionsHandedTo (fn : String) (tr : List Event) : List VersionGetter :=
  tr.filterMap (fun e => match e with
    | .call _ f args _ => if f = fn then args.findSome? Arg.versionRecord else none
    | _ => none)

/-- The (name, related objects) pairs given to `status.NewClusterOperatorStatusController`. -/
def statusControllers (tr : List Event) : List (String × List ObjectReference) :=
  tr.filterMap (fun e => match e with
    | .call _ f (.str name :: .objectRefs l :: _) _ =>
      if f = "status.NewClusterOperatorStatusController" then some (name, l) else none
    | _ => none)

/-- The version of the last entry for `name` in an observed version list, if `name`
occurs in it. -/
def lastObserved (versions : List OperandVersion) (name : String) : Option String :=
  (versions.reverse.find? (fun v => v.Name == name)).map (fun v => v.Version)

/-- The run returns right after the statement assigning `v`: that statement is the last
effect and the call returns an error. -/
def abortsAt (v : Var) (r : Run) : Prop :=
  (∃ e, r.trace.getLast? = some e ∧ e.constructs v = true) ∧
  ∃ err, r.outcome = .returned (some err)

/-- Every `p`-effect of the trace happens before every `q`-effect: no `q`-effect occurs
earlier in the trace than some `p`-effect. -/
def AllBefore (p q : Event → Bool) (tr : List Event) : Prop :=
  ∀ l₁ e l₂, tr = l₁ ++ e :: l₂ → p e = true → ∀ x ∈ l₁, q x = false

/-- Checker for `AllBefore`: `seen` records that a `q`-effect has already occurred. -/
def allBeforeB (p q : Event → Bool) : Bool → List Event → Bool
  | _, [] => true
  | seen, e :: es => !(seen && p e) && allBeforeB p q (seen || q e) es

/-- The statement constructs one of the five informer factories. -/
def Event.constructsFactory (e : Event) : Bool :=
  e.constructs .operatorConfigInformers || e.constructs .kubeInformersForNamespaces ||
  e.constructs .apiregistrationInformers || e.constructs .configInformers ||
  e.constructs .dynamicInformers

/-- The statement constructs one of the ten controllers that are launched. -/
def Event.constructsController (e : Event) : Bool :=
  e.constructs .workloadController || e.constructs .configObserver ||
  e.constructs .clusterOperatorStatus || e.constructs .finalizerController ||
  e.constructs .resourceSyncController || e.constructs .revisionController ||
  e.constructs .encryptionControllers || e.constructs .pruneController ||
  e.constructs .configUpgradeableController || e.constructs .logLevelController

/-- Some effect of the trace satisfies `p`. -/
def Occurs (p : Event → Bool) (tr : List Event) : Prop := ∃ e ∈ tr, p e = true

/-- The statement belongs to the wiring phase: a call, a field assignment or a
`SetVersion`. -/
def Event.isWiring : Event → Bool
  | .call _ _ _ _ => true
  | .setField _ _ _ => true
  | .setVersion _ _ => true
  | _ => false

/-- The cancellation signals observed along a trace, in order. -/
def signals (tr : List Event) : List Signal := tr.filterMap Event.signal

/-- Cache sync gates every launch: each `go controller.Run` is preceded in the trace by
a wait for cache sync that completed with result true. -/
def SyncGated (tr : List Event) : Prop :=
  ∀ l₁ e l₂, tr = l₁ ++ e :: l₂ → e.isGoRun = true → Event.waitForCacheSync true ∈ l₁

/-- The step `s` is the first one on which `RunOperator` returns, with error `e`. -/
def World.firstFailure (w : World) (s : Step) (e : GoError) : Prop :=
  (∀ s' : Step, s'.index < s.index → w.abortError s' = none) ∧ w.abortError s = some e

/-! ## Example inputs -/

def examplePkg : Pkg :=
  ⟨"openshift-config", "openshift-config-managed", "openshift-apiserver-operator",
   "openshift-apiserver", [⟨"apiregistration.k8s.io", "apiservices", "", "v1.apps.openshift.io"⟩]⟩

/-- A context with a server whose cancellation signal fires during the run. -/
def exampleConfig : ControllerContext := ⟨some 1, ⟨7, .firesLater⟩⟩

/-- A context whose cancellation signal has already fired when `RunOperator` is entered. -/
def cancelledConfig : ControllerContext := ⟨some 1, ⟨7, .firedAtEntry⟩⟩

/-- A world in which every step succeeds and the ClusterOperator reports one version. -/
def okWorld : World :=
  ⟨fun _ => none, ⟨[⟨"operator-component", "1.2.0"⟩]⟩,
   fun name => if name = "OPERATOR_IMAGE_VERSION" then "4.3.0" else ""⟩

/-- A world in which the ClusterOperator does not exist yet. -/
def notFoundWorld : World :=
  ⟨fun s => if s = .clusterOperatorGet then some ⟨"not found", true⟩ else none, ⟨[]⟩,
   fun name => if name = "OPERATOR_IMAGE_VERSION" then "4.3.0" else ""⟩

/-- A world in which the first client constructor fails. -/
def brokenWorld : World :=
  ⟨fun s => if s = .kubeClient then some ⟨"bad config", false⟩ else none, ⟨[]⟩, fun _ => ""⟩

/-! ## Basic facts -/

theorem okWorld_succeeds : okWorld.constructionSucceeds := by
  intro s; cases s <;> rfl

theorem brokenWorld_firstFailure :
    brokenWorld.firstFailure .kubeClient ⟨"bad config", false⟩ :=
  ⟨fun s hs => by cases s <;> simp [Step.index] at hs, rfl⟩

theorem succeeds_iff (w : World) :
    w.constructionSucceeds ↔
      w.err .kubeClient = none ∧ w.err .dynamicClient = none ∧
      w.err .apiregistrationClient = none ∧ w.err .operatorConfigClient = none ∧
      w.err .configClient = none ∧ w.err .operatorClient = none ∧
      w.err .resourceSync = none ∧ w.abortError .clusterOperatorGet = none ∧
      w.err .encryptionDeployer = none ∧ w.err .encryptionControllers = none := by
  constructor
  · intro h
    exact ⟨h .kubeClient, h .dynamicClient, h .apiregistrationClient, h .operatorConfigClient,
      h .configClient, h .operatorClient, h .resourceSync, h .clusterOperatorGet,
      h .encryptionDeployer, h .encryptionControllers⟩
  · rintro ⟨h0, h1, h2, h3, h4, h5, h6, h7, h8, h9⟩ s
    cases s <;> assumption

@[simp] theorem abortError_kubeClient (w : World) :
    w.abortError .kubeClient = w.err .kubeClient := rfl

@[simp] theorem abortError_dynamicClient (w : World) :
    w.abortError .dynamicClient = w.err .dynamicClient := rfl

@[simp] theorem abortError_apiregistrationClient (w : World) :
    w.abortError .apiregistrationClient = w.err .apiregistrationClient := rfl

@[simp] theorem abortError_operatorConfigClient (w : World) :
    w.abortError .operatorConfigClient = w.err .operatorConfigClient := rfl

@[simp] theorem abortError_configClient (w : World) :
    w.abortError .configClient = w.err .configClient := rfl

@[simp] theorem abortError_operatorClient (w : World) :
    w.abortError .operatorClient = w.err .operatorClient := rfl

@[simp] theorem abortError_resourceSync (w : World) :
    w.abortError .resourceSync = w.err .resourceSync := rfl

@[simp] theorem abortError_encryptionDeployer (w : World) :
    w.abortError .encryptionDeployer = w.err .encryptionDeployer := rfl

@[simp] theorem abortError_encryptionControllers (w : World) :
    w.abortError .encryptionControllers = w.err .encryptionControllers := rfl

/-- Either every step succeeds or some step is the first to fail. -/
theorem succeeds_or_firstFailure (w : World) :
    w.constructionSucceeds ∨ ∃ s e, w.firstFailure s e := by
  by_cases h : w.constructionSucceeds
  · exact Or.inl h
  · right
    have hex : ∃ n, ∃ s : Step, s.index = n ∧ w.abortError s ≠ none := by
      simp only [World.constructionSucceeds, not_forall] at h
      obtain ⟨s, hs⟩ := h
      exact ⟨s.index, s, rfl, hs⟩
    classical
    obtain ⟨s, hidx, hs⟩ := Nat.find_spec hex
    obtain ⟨e, he⟩ := Option.ne_none_iff_exists'.1 hs
    refine ⟨s, e, fun s' hs' => ?_, he⟩
    by_contra hne
    exact Nat.find_min hex (hidx ▸ hs') ⟨s', rfl, hne⟩

/-- When a step is the first to fail, `RunOperator` returns that step's error after
wiring effects only, and the run does not depend on the controller context. -/
theorem run_of_firstFailure (pkg : Pkg) (cc : ControllerContext) (w : World)
    (s : Step) (e : GoError) (hf : w.firstFailure s e) :
    (RunOperator pkg cc w).outcome = .returned (some e) ∧
    (RunOperator pkg cc w).trace.all Event.isWiring = true ∧
    ∀ cc' : ControllerContext, RunOperator pkg cc' w = RunOperator pkg cc w := by
  obtain ⟨hfirst, hfail⟩ := hf
  have h0 := hfirst .kubeClient
  have h1 := hfirst .dynamicClient
  have h2 := hfirst .apiregistrationClient
  have h3 := hfirst .operatorConfigClient
  have h4 := hfirst .configClient
  have h5 := hfirst .operatorClient
  have h6 := hfirst .resourceSync
  have h7 := hfirst .clusterOperatorGet
  have h8 := hfirst .encryptionDeployer
  cases s <;>
    simp only [Step.index, Nat.lt_irrefl, Nat.not_lt_zero, Nat.lt_succ_self, forall_const,
      false_implies, Nat.reduceLT, abortError_kubeClient, abortError_dynamicClient,
      abortError_apiregistrationClient, abortError_operatorConfigClient,
      abortError_configClient, abortError_operatorClient, abortError_resourceSync,
      abortError_encryptionDeployer, abortError_encryptionControllers]
      at h0 h1 h2 h3 h4 h5 h6 h7 h8 hfail <;>
    simp [RunOperator, List.all_cons, List.all_append, List.all_map, Function.comp_def,
      Event.isWiring, *]

theorem mem_of_all_isWiring {tr : List Event} (h : tr.all Event.isWiring = true)
    {ev : Event} (hev : ev ∈ tr) : ev.isWiring = true :=
  List.all_eq_true.1 h ev hev

theorem allBeforeB_sound (p q : Event → Bool) (tr : List Event) (seen : Bool)
    (h : allBeforeB p q seen tr = true) :
    ∀ l₁ e l₂, tr = l₁ ++ e :: l₂ → p e = true → seen = false ∧ ∀ x ∈ l₁, q x = false := by
  induction tr generalizing seen with
  | nil => intro l₁ e l₂ heq; simp at heq
  | cons a tr ih =>
    intro l₁ e l₂ heq hp
    simp only [allBeforeB, Bool.and_eq_true, Bool.not_eq_true'] at h
    cases l₁ with
    | nil =>
      simp only [List.nil_append, List.cons.injEq] at heq
      obtain ⟨rfl, -⟩ := heq
      refine ⟨?_, by simp⟩
      simpa [hp] using h.1
    | cons b l₁ =>
      simp only [List.cons_append, List.cons.injEq] at heq
      obtain ⟨rfl, htr⟩ := heq
      have := ih _ h.2 l₁ e l₂ htr hp
      simp only [Bool.or_eq_false_iff] at this
      refine ⟨this.1.1, ?_⟩
      intro x hx
      rcases List.mem_cons.1 hx with rfl | hx
      · exact this.1.2
      · exact this.2 x hx

theorem allBefore_of_check {p q : Event → Bool} {tr : List Event}
    (h : allBeforeB p q false tr = true) : AllBefore p q tr :=
  fun l₁ e l₂ heq hp => (allBeforeB_sound p q tr false h l₁ e l₂ heq hp).2

theorem allBeforeB_append (p q : Event → Bool) (a b : List Event) (seen : Bool) :
    allBeforeB p q seen (a ++ b) = (allBeforeB p q seen a && allBeforeB p q (seen || a.any q) b) := by
  induction a generalizing seen with
  | nil => simp [allBeforeB]
  | cons x a ih => simp [allBeforeB, ih, Bool.and_assoc, Bool.or_assoc]

theorem allBeforeB_seed_not_p (p q : Event → Bool) (l : List OperandVersion) (seen : Bool)
    (hp : ∀ n v, p (.setVersion n v) = false) :
    allBeforeB p q seen (l.map (fun v => Event.setVersion v.Name v.Version)) = true := by
  induction l generalizing seen with
  | nil => rfl
  | cons x l ih => simp [allBeforeB, hp, ih]

theorem allBeforeB_seed_not_q (p q : Event → Bool) (l : List OperandVersion)
    (hq : ∀ n v, q (.setVersion n v) = false) :
    allBeforeB p q false (l.map (fun v => Event.setVersion v.Name v.Version)) = true := by
  induction l with
  | nil => rfl
  | cons x l ih => simp [allBeforeB, hq, ih]

theorem any_seed_not_q (q : Event → Bool) (l : List OperandVersion)
    (hq : ∀ n v, q (.setVersion n v) = false) :
    (l.map (fun v => Event.setVersion v.Name v.Version)).any q = false := by
  induction l with
  | nil => rfl
  | cons x l ih => simp [hq, ih]

theorem allBefore_of_all_false {p q : Event → Bool} {tr : List Event}
    (h : ∀ e ∈ tr, q e = false) : AllBefore p q tr := by
  intro l₁ e l₂ heq _ x hx
  exact h x (by rw [heq]; exact List.mem_append_left _ hx)

theorem occurs_of_any {p : Event → Bool} {tr : List Event} (h : tr.any p = true) :
    Occurs p tr := List.any_eq_true.1 h

/-! ## Properties of `RunOperator` -/

/-- C1: `RunOperator` never returns nil.  Whatever the context and the world, the call
does not end with `returned none`; when every construction step succeeds the last
effect is the receive on the context's `Done` channel, the call stays blocked if the
signal never fires, and otherwise returns the error "stopped". -/
theorem RunOperator_never_reports_success (pkg : Pkg) (cc : ControllerContext) (w : World) :
    (RunOperator pkg cc w).outcome ≠ .returned none ∧
    (w.constructionSucceeds →
      (cc.Ctx.cancellation = .never → (RunOperator pkg cc w).outcome = .blocked) ∧
      (cc.Ctx.cancellation ≠ .never →
        (RunOperator pkg cc w).outcome = .returned (some stopped)) ∧
      stopped.msg = "stopped" ∧
      (RunOperator pkg cc w).trace.getLast? = some (.recvDone cc.Ctx.id)) := by
  constructor
  · rcases succeeds_or_firstFailure w with h | ⟨s, e, hf⟩
    · obtain ⟨h0, h1, h2, h3, h4, h5, h6, h7, h8, h9⟩ := (succeeds_iff w).1 h
      cases hcc : cc.Ctx.cancellation <;>
        simp [RunOperator, h0, h1, h2, h3, h4, h5, h6, h7, h8, h9, hcc]
    · rw [(run_of_firstFailure pkg cc w s e hf).1]
      simp
  · intro h
    obtain ⟨h0, h1, h2, h3, h4, h5, h6, h7, h8, h9⟩ := (succeeds_iff w).1 h
    refine ⟨?_, ?_, rfl, ?_⟩
    · intro hc
      simp [RunOperator, h0, h1, h2, h3, h4, h5, h6, h7, h8, h9, hc]
    · intro hc
      cases hcc : cc.Ctx.cancellation <;>
        simp_all [RunOperator]
    · cases hsv : cc.Server <;>
        simp [RunOperator, h0, h1, h2, h3, h4, h5, h6, h7, h8, h9, hsv,
          List.getLast?_eq_getLast]

theorem RunOperator_never_reports_success_witness :
    (RunOperator examplePkg exampleConfig okWorld).outcome = .returned (some stopped) :=
  ((RunOperator_never_reports_success examplePkg exampleConfig okWorld).2
    okWorld_succeeds).2.1 (by decide)

/-- C2: when a construction step is the first to fail, `RunOperator` returns exactly
that step's error, and its trace contains no informer start, no controller launch and
no debug handler registration. -/
theorem RunOperator_fatal_startup_error (pkg : Pkg) (cc : ControllerContext) (w : World)
    (s : Step) (e : GoError)
    (hfirst : ∀ s' : Step, s'.index < s.index → w.abortError s' = none)
    (hfail : w.abortError s = some e) :
    (RunOperator pkg cc w).outcome = .returned (some e) ∧
    ∀ ev ∈ (RunOperator pkg cc w).trace,
      ev.isInformerStart = false ∧ ev.isGoRun = false ∧ ev.isHandle = false := by
  have key := run_of_firstFailure pkg cc w s e ⟨hfirst, hfail⟩
  refine ⟨key.1, fun ev hev => ?_⟩
  have hw := mem_of_all_isWiring key.2.1 hev
  cases ev <;> simp_all [Event.isWiring, Event.isInformerStart, Event.isGoRun, Event.isHandle]

theorem RunOperator_fatal_startup_error_witness :
    (RunOperator examplePkg exampleConfig brokenWorld).outcome
        = .returned (some ⟨"bad config", false⟩) ∧
    ∀ ev ∈ (RunOperator examplePkg exampleConfig brokenWorld).trace,
      ev.isInformerStart = false ∧ ev.isGoRun = false ∧ ev.isHandle = false :=
  RunOperator_fatal_startup_error examplePkg exampleConfig brokenWorld .kubeClient
    ⟨"bad config", false⟩ brokenWorld_firstFailure.1 brokenWorld_firstFailure.2

/-- C3, as stated, fails: with every step succeeding and the cancellation signal
already fired on entry, controllers are launched although the trace contains no wait
for cache sync at all. -/
theorem cache_sync_gate_counterexample :
    cancelledConfig.Ctx.cancellation = .firedAtEntry ∧
    ¬ SyncGated (RunOperator examplePkg cancelledConfig okWorld).trace ∧
    (launches (RunOperator examplePkg cancelledConfig okWorld).trace).length = 10 := by
  refine ⟨rfl, ?_, by decide⟩
  intro h
  have hmem : Event.goRun .workloadController (some 1) (.done 7) ∈
      (RunOperator examplePkg cancelledConfig okWorld).trace := by decide
  obtain ⟨l₁, l₂, hsplit⟩ := List.append_of_mem hmem
  have hwait : Event.waitForCacheSync true ∈
      (RunOperator examplePkg cancelledConfig okWorld).trace := by
    rw [hsplit]
    exact List.mem_append_left _ (h l₁ _ l₂ hsplit rfl)
  revert hwait
  decide

/-- C3, amended: `RunOperator` never waits for cache sync; every informer factory
`Start` happens before every controller launch; and when every construction step
succeeds the five factories are started and the ten controllers launched, whatever
the state of the cancellation signal. -/
theorem launches_follow_informer_starts (pkg : Pkg) (cc : ControllerContext) (w : World) :
    (∀ e ∈ (RunOperator pkg cc w).trace, e.isWaitForCacheSync = false) ∧
    AllBefore Event.isInformerStart Event.isGoRun (RunOperator pkg cc w).trace ∧
    (w.constructionSucceeds →
      starts (RunOperator pkg cc w).trace =
        [.operatorConfigInformers, .kubeInformersForNamespaces, .apiregistrationInformers,
         .configInformers, .dynamicInformers] ∧
      (launches (RunOperator pkg cc w).trace).length = 10) := by
  rcases succeeds_or_firstFailure w with h | ⟨s, e, hf⟩
  · obtain ⟨h0, h1, h2, h3, h4, h5, h6, h7, h8, h9⟩ := (succeeds_iff w).1 h
    refine ⟨?_, ?_, fun _ => ⟨?_, ?_⟩⟩
    · have : (RunOperator pkg cc w).trace.all (fun e => !e.isWaitForCacheSync) = true := by
        cases hsv : cc.Server <;>
          simp [RunOperator, h0, h1, h2, h3, h4, h5, h6, h7, h8, h9, hsv, List.all_cons,
            List.all_append, List.all_map, Function.comp_def, Event.isWaitForCacheSync]
      intro e he
      simpa using List.all_eq_true.1 this e he
    · apply allBefore_of_check
      cases hsv : cc.Server <;>
        simp [RunOperator, h0, h1, h2, h3, h4, h5, h6, h7, h8, h9, hsv, allBeforeB,
          allBeforeB_append, allBeforeB_seed_not_p, any_seed_not_q, Event.isInformerStart,
          Event.isGoRun]
    · cases hsv : cc.Server <;>
        simp [RunOperator, h0, h1, h2, h3, h4, h5, h6, h7, h8, h9, hsv, starts,
          List.filterMap_cons, List.filterMap_append, List.filterMap_map, Function.comp_def]
    · cases hsv : cc.Server <;>
        simp [RunOperator, h0, h1, h2, h3, h4, h5, h6, h7, h8, h9, hsv, launches,
          List.filterMap_cons, List.filterMap_append, List.filterMap_map, Function.comp_def]
  · have key := run_of_firstFailure pkg cc w s e hf
    have hq : ∀ ev ∈ (RunOperator pkg cc w).trace,
        ev.isWaitForCacheSync = false ∧ ev.isGoRun = false := by
      intro ev hev
      have hw := mem_of_all_isWiring key.2.1 hev
      cases ev <;> simp_all [Event.isWiring, Event.isWaitForCacheSync, Event.isGoRun]
    refine ⟨fun ev hev => (hq ev hev).1, allBefore_of_all_false (fun ev hev => (hq ev hev).2),
      fun hs => ?_⟩
    have hfail := hf.2
    rw [hs s] at hfail
    exact absurd hfail (by simp)

theorem launches_follow_informer_starts_witness :
    (launches (RunOperator examplePkg cancelledConfig okWorld).trace).length = 10 :=
  ((launches_follow_informer_starts examplePkg cancelledConfig okWorld).2.2
    okWorld_succeeds).2

/-- C5, as stated, fails: with a non-nil `Server` but a failing first constructor the
debug handler is never registered, so registration is not equivalent to `Server`
being non-nil. -/
theorem debug_handler_counterexample :
    exampleConfig.Server ≠ none ∧
    ∀ e ∈ (RunOperator examplePkg exampleConfig brokenWorld).trace, e.isHandle = false := by
  decide

/-- C5, amended: for two contexts that differ only in `Server`, `RunOperator` ends the
same way and the run without a server performs exactly the effects of the run with a
server minus handler registrations; without a server nothing is registered; with a
server the resource-sync debug handler is registered exactly once, at
"/debug/controllers/resourcesync", when every construction step succeeds, and not at
all (the two runs coincide) when some step fails. -/
theorem debug_endpoint_noninterference (pkg : Pkg) (cc : ControllerContext) (w : World)
    (server : Nat) :
    (RunOperator pkg { cc with Server := none } w).outcome
      = (RunOperator pkg { cc with Server := some server } w).outcome ∧
    (RunOperator pkg { cc with Server := none } w).trace
      = (RunOperator pkg { cc with Server := some server } w).trace.filter
          (fun e => !e.isHandle) ∧
    (RunOperator pkg { cc with Server := none } w).trace.filter Event.isHandle = [] ∧
    (w.constructionSucceeds →
      (RunOperator pkg { cc with Server := some server } w).trace.filter Event.isHandle
        = [.handle server "/debug/controllers/resourcesync" .debugHandler]) ∧
    (¬ w.constructionSucceeds →
      RunOperator pkg { cc with Server := some server } w
        = RunOperator pkg { cc with Server := none } w) := by
  rcases succeeds_or_firstFailure w with h | ⟨s, e, hf⟩
  · obtain ⟨h0, h1, h2, h3, h4, h5, h6, h7, h8, h9⟩ := (succeeds_iff w).1 h
    refine ⟨?_, ?_, ?_, fun _ => ?_, fun hn => absurd h hn⟩ <;>
      simp [RunOperator, h0, h1, h2, h3, h4, h5, h6, h7, h8, h9, List.filter_cons,
        List.filter_append, List.filter_map, Function.comp_def, Event.isHandle]
  · have key := run_of_firstFailure pkg { cc with Server := none } w s e hf
    have hsame := key.2.2 { cc with Server := some server }
    have hnone : ∀ ev ∈ (RunOperator pkg { cc with Server := none } w).trace,
        ev.isHandle = false := by
      intro ev hev
      have hw := mem_of_all_isWiring key.2.1 hev
      cases ev <;> simp_all [Event.isWiring, Event.isHandle]
    refine ⟨by rw [hsame], ?_, ?_, fun hs => ?_, fun _ => hsame⟩
    · rw [hsame]
      exact (List.filter_eq_self.2 (fun ev hev => by simp [hnone ev hev])).symm
    · exact List.filter_eq_nil_iff.2 (fun ev hev => by simp [hnone ev hev])
    · have hfail := hf.2
      rw [hs s] at hfail
      exact absurd hfail (by simp)

theorem debug_endpoint_noninterference_witness :
    (RunOperator examplePkg { exampleConfig with Server := some 1 } okWorld).trace.filter
        Event.isHandle
      = [.handle 1 "/debug/controllers/resourcesync" .debugHandler] ∧
    RunOperator examplePkg { exampleConfig with Server := some 1 } brokenWorld
      = RunOperator examplePkg { exampleConfig with Server := none } brokenWorld :=
  ⟨(debug_endpoint_noninterference examplePkg exampleConfig okWorld 1).2.2.2.1
      okWorld_succeeds,
   (debug_endpoint_noninterference examplePkg exampleConfig brokenWorld 1).2.2.2.2
      (fun h => by have := h .kubeClient; simp [brokenWorld] at this)⟩

/-- C6: when every construction step succeeds, `RunOperator` executes exactly ten `go`
launches, one for each of the ten controllers in source order, no controller twice,
and every launch that takes a worker count is given 1. -/
theorem each_controller_launched_once (pkg : Pkg) (cc : ControllerContext) (w : World)
    (h : w.constructionSucceeds) :
    launches (RunOperator pkg cc w).trace =
      [(.workloadController, some 1), (.configObserver, some 1),
       (.clusterOperatorStatus, some 1), (.finalizerController, some 1),
       (.resourceSyncController, some 1), (.revisionController, some 1),
       (.encryptionControllers, none), (.pruneController, some 1),
       (.configUpgradeableController, some 1), (.logLevelController, some 1)] ∧
    (launches (RunOperator pkg cc w).trace).length = 10 ∧
    ((launches (RunOperator pkg cc w).trace).map Prod.fst).Nodup ∧
    ∀ c n, (c, some n) ∈ launches (RunOperator pkg cc w).trace → n = 1 := by
  obtain ⟨h0, h1, h2, h3, h4, h5, h6, h7, h8, h9⟩ := (succeeds_iff w).1 h
  have key : launches (RunOperator pkg cc w).trace =
      [(.workloadController, some 1), (.configObserver, some 1),
       (.clusterOperatorStatus, some 1), (.finalizerController, some 1),
       (.resourceSyncController, some 1), (.revisionController, some 1),
       (.encryptionControllers, none), (.pruneController, some 1),
       (.configUpgradeableController, some 1), (.logLevelController, some 1)] := by
    cases hsv : cc.Server <;>
      simp [RunOperator, h0, h1, h2, h3, h4, h5, h6, h7, h8, h9, hsv, launches,
        List.filterMap_cons, List.filterMap_append, List.filterMap_map, Function.comp_def]
  rw [key]
  refine ⟨rfl, rfl, by decide, ?_⟩
  intro c n hmem
  simp only [List.mem_cons, Prod.mk.injEq, Option.some.injEq, List.mem_singleton,
    List.not_mem_nil, or_false, reduceCtorEq, and_false, false_or] at hmem
  omega

theorem each_controller_launched_once_witness :
    (launches (RunOperator examplePkg exampleConfig okWorld).trace).length = 10 :=
  (each_controller_launched_once examplePkg exampleConfig okWorld okWorld_succeeds).2.1

/-- C7: every cancellation signal observed along any run of `RunOperator` belongs to the
context passed in, and no effect creates or triggers a cancellation signal; when every
construction step succeeds the signals observed are, in order, the `Done` channel for
the five informer starts, then for the ten launches the `Done` channel or the context
itself, then the `Done` channel for the final receive. -/
theorem one_shared_cancellation_signal (pkg : Pkg) (cc : ControllerContext) (w : World) :
    (∀ sig ∈ signals (RunOperator pkg cc w).trace, sig.ctx = cc.Ctx.id) ∧
    (∀ e ∈ (RunOperator pkg cc w).trace, e.touchesCancellation = false) ∧
    (w.constructionSucceeds →
      (RunOperator pkg cc w).trace.filter (fun e => e.signal.isSome) =
        [.informerStart .operatorConfigInformers (.done cc.Ctx.id),
         .informerStart .kubeInformersForNamespaces (.done cc.Ctx.id),
         .informerStart .apiregistrationInformers (.done cc.Ctx.id),
         .informerStart .configInformers (.done cc.Ctx.id),
         .informerStart .dynamicInformers (.done cc.Ctx.id),
         .goRun .workloadController (some 1) (.done cc.Ctx.id),
         .goRun .configObserver (some 1) (.done cc.Ctx.id),
         .goRun .clusterOperatorStatus (some 1) (.done cc.Ctx.id),
         .goRun .finalizerController (some 1) (.done cc.Ctx.id),
         .goRun .resourceSyncController (some 1) (.done cc.Ctx.id),
         .goRun .revisionController (some 1) (.context cc.Ctx.id),
         .goRun .encryptionControllers none (.done cc.Ctx.id),
         .goRun .pruneController (some 1) (.done cc.Ctx.id),
         .goRun .configUpgradeableController (some 1) (.context cc.Ctx.id),
         .goRun .logLevelController (some 1) (.context cc.Ctx.id),
         .recvDone cc.Ctx.id]) := by
  rcases succeeds_or_firstFailure w with h | ⟨s, e, hf⟩
  · obtain ⟨h0, h1, h2, h3, h4, h5, h6, h7, h8, h9⟩ := (succeeds_iff w).1 h
    refine ⟨?_, ?_, fun _ => ?_⟩
    · have : signals (RunOperator pkg cc w).trace =
          [.done cc.Ctx.id, .done cc.Ctx.id, .done cc.Ctx.id, .done cc.Ctx.id,
           .done cc.Ctx.id, .done cc.Ctx.id, .done cc.Ctx.id, .done cc.Ctx.id,
           .done cc.Ctx.id, .done cc.Ctx.id, .context cc.Ctx.id, .done cc.Ctx.id,
           .done cc.Ctx.id, .context cc.Ctx.id, .context cc.Ctx.id, .done cc.Ctx.id] := by
        cases hsv : cc.Server <;>
          simp [RunOperator, h0, h1, h2, h3, h4, h5, h6, h7, h8, h9, hsv, signals,
            Event.signal, List.filterMap_cons, List.filterMap_append, List.filterMap_map,
            Function.comp_def]
      rw [this]
      intro sig hsig
      simp only [List.mem_cons, List.mem_singleton, List.not_mem_nil, or_false] at hsig
      rcases hsig with h | h | h | h | h | h | h | h | h | h | h | h | h | h | h | h <;>
        rw [h] <;> rfl
    · have : (RunOperator pkg cc w).trace.all (fun e => !e.touchesCancellation) = true := by
        cases hsv : cc.Server <;>
          simp [RunOperator, h0, h1, h2, h3, h4, h5, h6, h7, h8, h9, hsv, List.all_cons,
            List.all_append, List.all_map, Function.comp_def, Event.touchesCancellation]
      intro e he
      simpa using List.all_eq_true.1 this e he
    · cases hsv : cc.Server <;>
        simp [RunOperator, h0, h1, h2, h3, h4, h5, h6, h7, h8, h9, hsv, List.filter_cons,
          List.filter_append, List.filter_map, Function.comp_def, Event.signal]
  · have key := run_of_firstFailure pkg cc w s e hf
    have hq : ∀ ev ∈ (RunOperator pkg cc w).trace,
        ev.signal = none ∧ ev.touchesCancellation = false := by
      intro ev hev
      have hw := mem_of_all_isWiring key.2.1 hev
      cases ev <;> simp_all [Event.isWiring, Event.signal, Event.touchesCancellation]
    refine ⟨fun sig hsig => ?_, fun ev hev => (hq ev hev).2, fun hs => ?_⟩
    · obtain ⟨ev, hev, hsome⟩ := List.mem_filterMap.1 hsig
      rw [(hq ev hev).1] at hsome
      exact absurd hsome (by simp)
    · have hfail := hf.2
      rw [hs s] at hfail
      exact absurd hfail (by simp)

theorem one_shared_cancellation_signal_witness :
    ((RunOperator examplePkg exampleConfig okWorld).trace.filter
      (fun e => e.signal.isSome)).length = 16 := by
  rw [(one_shared_cancellation_signal examplePkg exampleConfig okWorld).2.2 okWorld_succeeds]
  rfl

theorem find_filter_ne (l : List (String × String)) (n m : String) (h : ¬ n = m) :
    (l.filter (fun p => p.1 != n)).find? (fun p => p.1 == m)
      = l.find? (fun p => p.1 == m) := by
  induction l with
  | nil => rfl
  | cons a l ih =>
    by_cases ha : a.1 = n
    · have hm : ¬ a.1 = m := fun hh => h (ha.symm.trans hh)
      have hf : (a.1 != n) = false := by simp [ha]
      have hg : (a.1 == m) = false := by simp [hm]
      rw [List.filter_cons, hf, List.find?_cons, hg]
      simpa using ih
    · have hf : (a.1 != n) = true := by simp [ha]
      rw [List.filter_cons, hf]
      simp only [if_true, List.find?_cons, ih]

theorem get_SetVersion (v : VersionGetter) (n x m : String) :
    (v.SetVersion n x).get m = if n = m then some x else v.get m := by
  unfold VersionGetter.SetVersion VersionGetter.get
  by_cases h : n = m
  · simp [h]
  · simp [List.find?_cons, h, find_filter_ne _ _ _ h]

theorem lastObserved_cons (a : OperandVersion) (l : List OperandVersion) (m : String) :
    lastObserved (a :: l) m =
      (lastObserved l m).or (if a.Name = m then some a.Version else none) := by
  unfold lastObserved
  by_cases h : a.Name = m <;>
    cases hf : List.find? (fun v => v.Name == m) l.reverse <;>
    simp [List.find?_append, List.find?_cons, h, hf]

theorem get_foldl (l : List OperandVersion) (init : VersionGetter) (m : String) :
    (l.foldl (fun v version => v.SetVersion version.Name version.Version) init).get m
      = (lastObserved l m).or (init.get m) := by
  induction l generalizing init with
  | nil => simp [lastObserved]
  | cons a l ih =>
    rw [List.foldl_cons, ih, get_SetVersion, lastObserved_cons]
    cases lastObserved l m <;> by_cases h : a.Name = m <;> simp [h]

theorem get_seedVersions (w : World) (name : String) :
    (seedVersions w).get name =
      if name = "operator" then some (w.getenv "OPERATOR_IMAGE_VERSION")
      else lastObserved w.clusterOperator.Versions name := by
  unfold seedVersions
  rw [get_SetVersion, get_foldl]
  by_cases h : name = "operator"
  · simp [h]
  · have h' : ¬ "operator" = name := fun hh => h hh.symm
    simp [h, h', NewVersionGetter, VersionGetter.get]
theorem lastObserved_eq_none (l : List OperandVersion) (m : String) :
    lastObserved l m = none ↔ ∀ v ∈ l, v.Name ≠ m := by
  simp [lastObserved]

theorem get_eq_none_iff (v : VersionGetter) (m : String) :
    v.get m = none ↔ ∀ ver, (m, ver) ∉ v.AllVersions := by
  unfold VersionGetter.get VersionGetter.AllVersions
  simp only [Option.map_eq_none', List.find?_eq_none, beq_iff_eq]
  constructor
  · intro h ver hmem
    exact h _ hmem rfl
  · intro h p hp hpm
    exact h p.2 (by rw [← hpm]; exact hp)

theorem nodup_SetVersion (v : VersionGetter) (n x : String)
    (h : (v.AllVersions.map Prod.fst).Nodup) :
    ((v.SetVersion n x).AllVersions.map Prod.fst).Nodup := by
  unfold VersionGetter.SetVersion VersionGetter.AllVersions at *
  rw [List.map_cons, List.nodup_cons]
  constructor
  · simp
  · exact h.sublist ((List.filter_sublist _).map _)

theorem nodup_seedVersions (w : World) :
    ((seedVersions w).AllVersions.map Prod.fst).Nodup := by
  unfold seedVersions
  apply nodup_SetVersion
  generalize hi : NewVersionGetter = init
  have hinit : (init.AllVersions.map Prod.fst).Nodup := by
    subst hi; simp [NewVersionGetter, VersionGetter.AllVersions]
  clear hi
  induction w.clusterOperator.Versions generalizing init with
  | nil => simpa using hinit
  | cons a l ih => exact ih _ (nodup_SetVersion _ _ _ hinit)

/-- Once the ClusterOperator lookup is passed, the workload and status controllers are
constructed, each exactly once, with the seeded version record and the fixed list of
related objects. -/
theorem wiring_after_lookup (pkg : Pkg) (cc : ControllerContext) (w : World)
    (h : w.noAbortThrough .clusterOperatorGet) :
    versionsHandedTo "workloadcontroller.NewWorkloadController" (RunOperator pkg cc w).trace
      = [seedVersions w] ∧
    versionsHandedTo "status.NewClusterOperatorStatusController" (RunOperator pkg cc w).trace
      = [seedVersions w] ∧
    statusControllers (RunOperator pkg cc w).trace =
      [("openshift-apiserver",
        [ ⟨"operator.openshift.io", "openshiftapiservers", "", "cluster"⟩,
          ⟨"", "namespaces", "", pkg.GlobalUserSpecifiedConfigNamespace⟩,
          ⟨"", "namespaces", "", pkg.GlobalMachineSpecifiedConfigNamespace⟩,
          ⟨"", "namespaces", "", pkg.OperatorNamespace⟩,
          ⟨"", "namespaces", "", pkg.TargetNamespace⟩ ] ++ pkg.APIServiceReferences)] ∧
    (RunOperator pkg cc w).trace.any (Event.constructs .workloadController) = true := by
  have h0 := h .kubeClient (by decide)
  have h1 := h .dynamicClient (by decide)
  have h2 := h .apiregistrationClient (by decide)
  have h3 := h .operatorConfigClient (by decide)
  have h4 := h .configClient (by decide)
  have h5 := h .operatorClient (by decide)
  have h6 := h .resourceSync (by decide)
  have h7 := h .clusterOperatorGet (by decide)
  simp only [abortError_kubeClient, abortError_dynamicClient,
    abortError_apiregistrationClient, abortError_operatorConfigClient,
    abortError_configClient, abortError_operatorClient, abortError_resourceSync]
    at h0 h1 h2 h3 h4 h5 h6
  refine ⟨?_, ?_, ?_, ?_⟩ <;>
  cases h8 : w.err .encryptionDeployer <;> cases h9 : w.err .encryptionControllers <;>
    cases hsv : cc.Server <;>
    simp [RunOperator, h0, h1, h2, h3, h4, h5, h6, h7, h8, h9, hsv, versionsHandedTo,
      statusControllers, seedVersions,
      List.filterMap_cons, List.filterMap_append, List.filterMap_map, Function.comp_def,
      List.findSome?_cons, Arg.versionRecord, Event.constructs]
theorem abortError_lookup_eq_some (w : World) (e : GoError) :
    w.abortError .clusterOperatorGet = some e ↔
      w.err .clusterOperatorGet = some e ∧ e.isNotFound = false := by
  unfold World.abortError
  cases h : w.err .clusterOperatorGet with
  | none => simp
  | some e' =>
    by_cases hn : e'.isNotFound = true
    · simp [hn]
      intro he
      rw [he] at hn
      simp [hn]
    · simp [hn]
      intro he
      rw [he] at hn
      simpa using hn

theorem last_after_lookup (pkg : Pkg) (cc : ControllerContext) (w : World)
    (h : w.noAbortThrough .clusterOperatorGet) :
    ∀ e, (RunOperator pkg cc w).trace.getLast? = some e →
      e.constructs .clusterOperator = false := by
  have h0 := h .kubeClient (by decide)
  have h1 := h .dynamicClient (by decide)
  have h2 := h .apiregistrationClient (by decide)
  have h3 := h .operatorConfigClient (by decide)
  have h4 := h .configClient (by decide)
  have h5 := h .operatorClient (by decide)
  have h6 := h .resourceSync (by decide)
  have h7 := h .clusterOperatorGet (by decide)
  simp only [abortError_kubeClient, abortError_dynamicClient,
        abortError_apiregistrationClient, abortError_operatorConfigClient,
        abortError_configClient, abortError_operatorClient, abortError_resourceSync] at h0 h1 h2 h3 h4 h5 h6
  intro e
  cases h8 : w.err .encryptionDeployer <;> cases h9 : w.err .encryptionControllers <;>
    cases hsv : cc.Server <;>
    simp [RunOperator, h0, h1, h2, h3, h4, h5, h6, h7, h8, h9, hsv,
      List.getLast?_eq_getLast] <;>
    intro he <;> rw [← he] <;> rfl

/-- C4: the version record handed to the workload and the status controller has at most
one entry per name, maps "operator" to the value of OPERATOR_IMAGE_VERSION, maps every
other name occurring in the observed version list to the version of its last
occurrence, and has no other keys. -/
theorem version_seeding (pkg : Pkg) (cc : ControllerContext) (w : World)
    (h : w.noAbortThrough .clusterOperatorGet) :
    versionsHandedTo "workloadcontroller.NewWorkloadController" (RunOperator pkg cc w).trace
      = [seedVersions w] ∧
    versionsHandedTo "status.NewClusterOperatorStatusController" (RunOperator pkg cc w).trace
      = [seedVersions w] ∧
    ((seedVersions w).AllVersions.map Prod.fst).Nodup ∧
    (∀ name, (seedVersions w).get name =
      if name = "operator" then some (w.getenv "OPERATOR_IMAGE_VERSION")
      else lastObserved w.clusterOperator.Versions name) ∧
    (∀ name, (∃ version, (name, version) ∈ (seedVersions w).AllVersions) ↔
      name = "operator" ∨ ∃ v ∈ w.clusterOperator.Versions, v.Name = name) := by
  refine ⟨(wiring_after_lookup pkg cc w h).1, (wiring_after_lookup pkg cc w h).2.1,
    nodup_seedVersions w, get_seedVersions w, fun name => ?_⟩
  have hnone := get_eq_none_iff (seedVersions w) name
  rw [get_seedVersions] at hnone
  by_cases hop : name = "operator"
  · simp only [hop, if_true, true_or, iff_true]
    by_contra hcon
    rw [hop] at hnone
    simp only [if_true] at hnone
    exact absurd (hnone.2 (fun ver hmem => hcon ⟨ver, hmem⟩)) (by simp)
  · simp only [hop, if_false, false_or] at hnone ⊢
    rw [lastObserved_eq_none] at hnone
    constructor
    · intro hex
      by_contra hcon
      obtain ⟨ver, hmem⟩ := hex
      exact hnone.1 (fun v hv hname => hcon ⟨v, hv, hname⟩) ver hmem
    · rintro ⟨v, hv, hname⟩
      by_contra hcon
      exact hnone.2 (fun ver hmem => hcon ⟨ver, hmem⟩) v hv hname

theorem version_seeding_witness :
    (seedVersions okWorld).get "operator-component" = some "1.2.0" ∧
    (seedVersions okWorld).get "operator" = some "4.3.0" := by
  have h := (version_seeding examplePkg exampleConfig okWorld
    (fun s _ => okWorld_succeeds s)).2.2.2.1
  exact ⟨by rw [h]; decide, by rw [h]; decide⟩

/-- C9: the status controller is constructed under the name "openshift-apiserver" with
the five fixed references followed by the API service references; the list has length
five plus the number of API service references and is the same in every run that
reaches the construction. -/
theorem related_objects_fixed (pkg : Pkg) (cc : ControllerContext) (w : World)
    (h : w.noAbortThrough .clusterOperatorGet) :
    statusControllers (RunOperator pkg cc w).trace =
      [("openshift-apiserver",
        [ ⟨"operator.openshift.io", "openshiftapiservers", "", "cluster"⟩,
          ⟨"", "namespaces", "", pkg.GlobalUserSpecifiedConfigNamespace⟩,
          ⟨"", "namespaces", "", pkg.GlobalMachineSpecifiedConfigNamespace⟩,
          ⟨"", "namespaces", "", pkg.OperatorNamespace⟩,
          ⟨"", "namespaces", "", pkg.TargetNamespace⟩ ] ++ pkg.APIServiceReferences)] ∧
    (∀ p ∈ statusControllers (RunOperator pkg cc w).trace,
      p.2.length = 5 + pkg.APIServiceReferences.length) ∧
    (∀ (cc' : ControllerContext) (w' : World), w'.noAbortThrough .clusterOperatorGet →
      statusControllers (RunOperator pkg cc' w').trace
        = statusControllers (RunOperator pkg cc w).trace) := by
  have key := (wiring_after_lookup pkg cc w h).2.2.1
  refine ⟨key, ?_, fun cc' w' h' => ?_⟩
  · rw [key]
    intro p hp
    rw [List.mem_singleton] at hp
    rw [hp]
    simp only [List.length_append, List.length_cons, List.length_nil]
  · rw [key, (wiring_after_lookup pkg cc' w' h').2.2.1]

theorem related_objects_fixed_witness :
    statusControllers (RunOperator examplePkg exampleConfig okWorld).trace =
      [("openshift-apiserver",
        [ ⟨"operator.openshift.io", "openshiftapiservers", "", "cluster"⟩,
          ⟨"", "namespaces", "", "openshift-config"⟩,
          ⟨"", "namespaces", "", "openshift-config-managed"⟩,
          ⟨"", "namespaces", "", "openshift-apiserver-operator"⟩,
          ⟨"", "namespaces", "", "openshift-apiserver"⟩,
          ⟨"apiregistration.k8s.io", "apiservices", "", "v1.apps.openshift.io"⟩ ])] :=
  (related_objects_fixed examplePkg exampleConfig okWorld (fun s _ => okWorld_succeeds s)).1

/-- C10: when the steps before the ClusterOperator lookup succeed, `RunOperator` returns
right after the lookup exactly when the lookup's error is non-nil and not NotFound, and
then returns that error; when the error is NotFound and the object is empty, wiring
goes on to construct the workload controller and the seeded version record is the
single entry "operator" with the value of OPERATOR_IMAGE_VERSION. -/
theorem missing_clusterOperator_not_fatal (pkg : Pkg) (cc : ControllerContext) (w : World)
    (h : w.noAbortThrough .resourceSync) :
    (abortsAt .clusterOperator (RunOperator pkg cc w) ↔
      ∃ e, w.err .clusterOperatorGet = some e ∧ e.isNotFound = false) ∧
    (∀ e, w.err .clusterOperatorGet = some e → e.isNotFound = false →
      (RunOperator pkg cc w).outcome = .returned (some e)) ∧
    (∀ e, w.err .clusterOperatorGet = some e → e.isNotFound = true →
      w.clusterOperator.Versions = [] →
      Occurs (Event.constructs .workloadController) (RunOperator pkg cc w).trace ∧
      versionsHandedTo "workloadcontroller.NewWorkloadController" (RunOperator pkg cc w).trace
        = [[("operator", w.getenv "OPERATOR_IMAGE_VERSION")]] ∧
      (seedVersions w).AllVersions = [("operator", w.getenv "OPERATOR_IMAGE_VERSION")]) := by
  have h0 := h .kubeClient (by decide)
  have h1 := h .dynamicClient (by decide)
  have h2 := h .apiregistrationClient (by decide)
  have h3 := h .operatorConfigClient (by decide)
  have h4 := h .configClient (by decide)
  have h5 := h .operatorClient (by decide)
  have h6 := h .resourceSync (by decide)
  simp only [abortError_kubeClient, abortError_dynamicClient,
    abortError_apiregistrationClient, abortError_operatorConfigClient,
    abortError_configClient, abortError_operatorClient, abortError_resourceSync]
    at h0 h1 h2 h3 h4 h5 h6
  have habort : ∀ e, w.abortError .clusterOperatorGet = some e →
      abortsAt .clusterOperator (RunOperator pkg cc w) ∧
      (RunOperator pkg cc w).outcome = .returned (some e) := by
    intro e he
    unfold abortsAt
    simp [RunOperator, h0, h1, h2, h3, h4, h5, h6, he, List.getLast?_eq_getLast,
      Event.constructs]
  have hthrough : w.abortError .clusterOperatorGet = none →
      w.noAbortThrough .clusterOperatorGet := by
    intro h7 s hs
    cases s <;> first | exact h _ (by decide) | exact h7 | exact absurd hs (by decide)
  refine ⟨⟨fun hab => ?_, fun ⟨e, he, hnf⟩ =>
      (habort e ((abortError_lookup_eq_some w e).2 ⟨he, hnf⟩)).1⟩,
    fun e he hnf => (habort e ((abortError_lookup_eq_some w e).2 ⟨he, hnf⟩)).2,
    fun e he hnf hempty => ?_⟩
  · cases h7 : w.abortError .clusterOperatorGet with
    | some e => exact ⟨e, (abortError_lookup_eq_some w e).1 h7⟩
    | none =>
      obtain ⟨⟨ev, hlast, hev⟩, _⟩ := hab
      rw [last_after_lookup pkg cc w (hthrough h7) ev hlast] at hev
      exact absurd hev (by simp)
  · have h7 : w.abortError .clusterOperatorGet = none := by
      simp [World.abortError, he, hnf]
    have hseed : seedVersions w = [("operator", w.getenv "OPERATOR_IMAGE_VERSION")] := by
      simp [seedVersions, hempty, NewVersionGetter, VersionGetter.SetVersion]
    have hw := (wiring_after_lookup pkg cc w (hthrough h7)).1
    rw [hseed] at hw
    exact ⟨List.any_eq_true.1 (wiring_after_lookup pkg cc w (hthrough h7)).2.2.2, hw, hseed⟩

theorem missing_clusterOperator_not_fatal_witness :
    Occurs (Event.constructs .workloadController)
      (RunOperator examplePkg exampleConfig notFoundWorld).trace ∧
    versionsHandedTo "workloadcontroller.NewWorkloadController"
        (RunOperator examplePkg exampleConfig notFoundWorld).trace
      = [[("operator", "4.3.0")]] ∧
    (seedVersions notFoundWorld).AllVersions = [("operator", "4.3.0")] :=
  (missing_clusterOperator_not_fatal examplePkg exampleConfig notFoundWorld
    (fun s _ => by cases s <;> rfl)).2.2
    ⟨"not found", true⟩ rfl rfl rfl

set_option maxHeartbeats 1000000

/-- Successful wiring constructs the resource sync controller before its two consumers. -/
theorem order_resourceSync (pkg : Pkg) (cc : ControllerContext) (w : World)
    (h : w.constructionSucceeds) :
    AllBefore (Event.constructs .resourceSyncController)
        (fun e => e.constructs .configObserver || e.constructs .deployer)
        (RunOperator pkg cc w).trace ∧
      Occurs (Event.constructs .resourceSyncController) (RunOperator pkg cc w).trace ∧
      Occurs (fun e => e.constructs .configObserver && e.receives .resourceSyncController)
        (RunOperator pkg cc w).trace ∧
      Occurs (fun e => e.constructs .deployer && e.receives .resourceSyncController)
        (RunOperator pkg cc w).trace := by
  obtain ⟨h0, h1, h2, h3, h4, h5, h6, h7, h8, h9⟩ := (succeeds_iff w).1 h
  have order : ∀ p q : Event → Bool,
      (∀ srv, allBeforeB p q false (RunOperator pkg ⟨srv, cc.Ctx⟩ w).trace = true) →
      AllBefore p q (RunOperator pkg cc w).trace := fun p q hp =>
    allBefore_of_check (hp cc.Server)
  have occurs : ∀ p : Event → Bool,
      (∀ srv, ((RunOperator pkg ⟨srv, cc.Ctx⟩ w).trace).any p = true) →
      Occurs p (RunOperator pkg cc w).trace := fun p hp => occurs_of_any (hp cc.Server)
  refine ⟨?_, ?_, ?_, ?_⟩
  · apply order; intro srv; cases srv <;>
      simp [RunOperator, h0, h1, h2, h3, h4, h5, h6, h7, h8, h9, allBeforeB,
        allBeforeB_append, allBeforeB_seed_not_p, any_seed_not_q, Event.constructs]
  · apply occurs; intro srv; cases srv <;>
      simp [RunOperator, h0, h1, h2, h3, h4, h5, h6, h7, h8, h9, Event.constructs]
  · apply occurs; intro srv; cases srv <;>
      simp [RunOperator, h0, h1, h2, h3, h4, h5, h6, h7, h8, h9, Event.constructs,
        Event.receives, Arg.vars]
  · apply occurs; intro srv; cases srv <;>
      simp [RunOperator, h0, h1, h2, h3, h4, h5, h6, h7, h8, h9, Event.constructs,
        Event.receives, Arg.vars]

/-- Successful wiring seeds the version record before handing it on. -/
theorem order_versionRecorder (pkg : Pkg) (cc : ControllerContext) (w : World)
    (h : w.constructionSucceeds) :
    AllBefore (Event.constructs .versionRecorder) Event.isSetVersion
        (RunOperator pkg cc w).trace ∧
      Occurs (Event.constructs .versionRecorder) (RunOperator pkg cc w).trace ∧
      (RunOperator pkg cc w).trace.filter Event.isSetVersion =
        w.clusterOperator.Versions.map (fun v => Event.setVersion v.Name v.Version) ++
          [.setVersion "operator" (w.getenv "OPERATOR_IMAGE_VERSION")] ∧
      AllBefore Event.isSetVersion
        (fun e => e.constructs .workloadController || e.constructs .clusterOperatorStatus)
        (RunOperator pkg cc w).trace ∧
      Occurs (fun e => e.constructs .workloadController && e.receives .versionRecorder)
        (RunOperator pkg cc w).trace ∧
      Occurs (fun e => e.constructs .clusterOperatorStatus && e.receives .versionRecorder)
        (RunOperator pkg cc w).trace := by
  obtain ⟨h0, h1, h2, h3, h4, h5, h6, h7, h8, h9⟩ := (succeeds_iff w).1 h
  have order : ∀ p q : Event → Bool,
      (∀ srv, allBeforeB p q false (RunOperator pkg ⟨srv, cc.Ctx⟩ w).trace = true) →
      AllBefore p q (RunOperator pkg cc w).trace := fun p q hp =>
    allBefore_of_check (hp cc.Server)
  have occurs : ∀ p : Event → Bool,
      (∀ srv, ((RunOperator pkg ⟨srv, cc.Ctx⟩ w).trace).any p = true) →
      Occurs p (RunOperator pkg cc w).trace := fun p hp => occurs_of_any (hp cc.Server)
  refine ⟨?_, ?_, ?_, ?_, ?_, ?_⟩
  · apply order; intro srv; cases srv <;>
      simp [RunOperator, h0, h1, h2, h3, h4, h5, h6, h7, h8, h9, allBeforeB,
        allBeforeB_append, allBeforeB_seed_not_p, any_seed_not_q, Event.constructs,
        Event.isSetVersion]
  · apply occurs; intro srv; cases srv <;>
      simp [RunOperator, h0, h1, h2, h3, h4, h5, h6, h7, h8, h9, Event.constructs]
  · cases hsv : cc.Server <;>
      simp [RunOperator, h0, h1, h2, h3, h4, h5, h6, h7, h8, h9, hsv, List.filter_cons,
        List.filter_append, List.filter_map, Function.comp_def, Event.isSetVersion]
  · apply order; intro srv; cases srv <;>
      simp [RunOperator, h0, h1, h2, h3, h4, h5, h6, h7, h8, h9, allBeforeB,
        allBeforeB_append, allBeforeB_seed_not_q, any_seed_not_q, Event.constructs,
        Event.isSetVersion]
  · apply occurs; intro srv; cases srv <;>
      simp [RunOperator, h0, h1, h2, h3, h4, h5, h6, h7, h8, h9, Event.constructs,
        Event.receives, Arg.vars]
  · apply occurs; intro srv; cases srv <;>
      simp [RunOperator, h0, h1, h2, h3, h4, h5, h6, h7, h8, h9, Event.constructs,
        Event.receives, Arg.vars]

/-- Successful wiring constructs the deployer and the migrator before the encryption controllers. -/
theorem order_encryption (pkg : Pkg) (cc : ControllerContext) (w : World)
    (h : w.constructionSucceeds) :
    AllBefore (fun e => e.constructs .deployer || e.constructs .migrator)
        (Event.constructs .encryptionControllers) (RunOperator pkg cc w).trace ∧
      Occurs (Event.constructs .deployer) (RunOperator pkg cc w).trace ∧
      Occurs (Event.constructs .migrator) (RunOperator pkg cc w).trace ∧
      Occurs (fun e => e.constructs .encryptionControllers && e.receives .deployer &&
          e.receives .migrator) (RunOperator pkg cc w).trace := by
  obtain ⟨h0, h1, h2, h3, h4, h5, h6, h7, h8, h9⟩ := (succeeds_iff w).1 h
  have order : ∀ p q : Event → Bool,
      (∀ srv, allBeforeB p q false (RunOperator pkg ⟨srv, cc.Ctx⟩ w).trace = true) →
      AllBefore p q (RunOperator pkg cc w).trace := fun p q hp =>
    allBefore_of_check (hp cc.Server)
  have occurs : ∀ p : Event → Bool,
      (∀ srv, ((RunOperator pkg ⟨srv, cc.Ctx⟩ w).trace).any p = true) →
      Occurs p (RunOperator pkg cc w).trace := fun p hp => occurs_of_any (hp cc.Server)
  refine ⟨?_, ?_, ?_, ?_⟩
  · apply order; intro srv; cases srv <;>
      simp [RunOperator, h0, h1, h2, h3, h4, h5, h6, h7, h8, h9, allBeforeB,
        allBeforeB_append, allBeforeB_seed_not_p, any_seed_not_q, Event.constructs]
  · apply occurs; intro srv; cases srv <;>
      simp [RunOperator, h0, h1, h2, h3, h4, h5, h6, h7, h8, h9, Event.constructs]
  · apply occurs; intro srv; cases srv <;>
      simp [RunOperator, h0, h1, h2, h3, h4, h5, h6, h7, h8, h9, Event.constructs]
  · apply occurs; intro srv; cases srv <;>
      simp [RunOperator, h0, h1, h2, h3, h4, h5, h6, h7, h8, h9, Event.constructs,
        Event.receives, Arg.vars]

/-- Successful wiring constructs the informer factories before the controllers and finishes before the first start. -/
theorem order_factories (pkg : Pkg) (cc : ControllerContext) (w : World)
    (h : w.constructionSucceeds) :
    AllBefore Event.constructsFactory Event.constructsController
        (RunOperator pkg cc w).trace ∧
      (∀ f ∈ [Var.operatorConfigInformers, .kubeInformersForNamespaces,
          .apiregistrationInformers, .configInformers, .dynamicInformers],
        Occurs (Event.constructs f) (RunOperator pkg cc w).trace) ∧
      AllBefore Event.isWiring (fun e => e.isInformerStart || e.isGoRun)
        (RunOperator pkg cc w).trace := by
  obtain ⟨h0, h1, h2, h3, h4, h5, h6, h7, h8, h9⟩ := (succeeds_iff w).1 h
  have order : ∀ p q : Event → Bool,
      (∀ srv, allBeforeB p q false (RunOperator pkg ⟨srv, cc.Ctx⟩ w).trace = true) →
      AllBefore p q (RunOperator pkg cc w).trace := fun p q hp =>
    allBefore_of_check (hp cc.Server)
  have occurs : ∀ p : Event → Bool,
      (∀ srv, ((RunOperator pkg ⟨srv, cc.Ctx⟩ w).trace).any p = true) →
      Occurs p (RunOperator pkg cc w).trace := fun p hp => occurs_of_any (hp cc.Server)
  refine ⟨?_, ?_, ?_⟩
  · apply order; intro srv; cases srv <;>
      simp [RunOperator, h0, h1, h2, h3, h4, h5, h6, h7, h8, h9, allBeforeB,
        allBeforeB_append, allBeforeB_seed_not_p, any_seed_not_q, Event.constructs,
        Event.constructsFactory, Event.constructsController]
  · intro f hf
    simp only [List.mem_cons, List.mem_singleton, List.not_mem_nil, or_false] at hf
    rcases hf with rfl | rfl | rfl | rfl | rfl <;>
      (apply occurs; intro srv; cases srv <;>
        simp [RunOperator, h0, h1, h2, h3, h4, h5, h6, h7, h8, h9, Event.constructs])
  · apply order; intro srv; cases srv <;>
      simp [RunOperator, h0, h1, h2, h3, h4, h5, h6, h7, h8, h9, allBeforeB,
        allBeforeB_append, allBeforeB_seed_not_q, any_seed_not_q, Event.isWiring,
        Event.isInformerStart, Event.isGoRun]

/-- C8: in every successful wiring, (a) the resource sync controller is constructed
before the config observer and the encryption deployer, which both receive it; (b) the
version record is created before any `SetVersion`, the `SetVersion` calls are the
observed versions in order followed by "operator", and all of them happen before the
workload and status controllers, which both receive the record, are constructed;
(c) the encryption deployer and the migrator are constructed before the encryption
controllers, which receive both; (d) each of the five informer factories is constructed,
all of them before any controller is constructed, and every wiring effect happens
before every informer start and every controller launch. -/
theorem construction_order (pkg : Pkg) (cc : ControllerContext) (w : World)
    (h : w.constructionSucceeds) :
    (AllBefore (Event.constructs .resourceSyncController)
        (fun e => e.constructs .configObserver || e.constructs .deployer)
        (RunOperator pkg cc w).trace ∧
      Occurs (Event.constructs .resourceSyncController) (RunOperator pkg cc w).trace ∧
      Occurs (fun e => e.constructs .configObserver && e.receives .resourceSyncController)
        (RunOperator pkg cc w).trace ∧
      Occurs (fun e => e.constructs .deployer && e.receives .resourceSyncController)
        (RunOperator pkg cc w).trace) ∧
    (AllBefore (Event.constructs .versionRecorder) Event.isSetVersion
        (RunOperator pkg cc w).trace ∧
      Occurs (Event.constructs .versionRecorder) (RunOperator pkg cc w).trace ∧
      (RunOperator pkg cc w).trace.filter Event.isSetVersion =
        w.clusterOperator.Versions.map (fun v => Event.setVersion v.Name v.Version) ++
          [.setVersion "operator" (w.getenv "OPERATOR_IMAGE_VERSION")] ∧
      AllBefore Event.isSetVersion
        (fun e => e.constructs .workloadController || e.constructs .clusterOperatorStatus)
        (RunOperator pkg cc w).trace ∧
      Occurs (fun e => e.constructs .workloadController && e.receives .versionRecorder)
        (RunOperator pkg cc w).trace ∧
      Occurs (fun e => e.constructs .clusterOperatorStatus && e.receives .versionRecorder)
        (RunOperator pkg cc w).trace) ∧
    (AllBefore (fun e => e.constructs .deployer || e.constructs .migrator)
        (Event.constructs .encryptionControllers) (RunOperator pkg cc w).trace ∧
      Occurs (Event.constructs .deployer) (RunOperator pkg cc w).trace ∧
      Occurs (Event.constructs .migrator) (RunOperator pkg cc w).trace ∧
      Occurs (fun e => e.constructs .encryptionControllers && e.receives .deployer &&
          e.receives .migrator) (RunOperator pkg cc w).trace) ∧
    (AllBefore Event.constructsFactory Event.constructsController
        (RunOperator pkg cc w).trace ∧
      (∀ f ∈ [Var.operatorConfigInformers, .kubeInformersForNamespaces,
          .apiregistrationInformers, .configInformers, .dynamicInformers],
        Occurs (Event.constructs f) (RunOperator pkg cc w).trace) ∧
      AllBefore Event.isWiring (fun e => e.isInformerStart || e.isGoRun)
        (RunOperator pkg cc w).trace) :=
  ⟨order_resourceSync pkg cc w h, order_versionRecorder pkg cc w h, order_encryption pkg cc w h,
    order_factories pkg cc w h⟩

theorem construction_order_witness :
    (RunOperator examplePkg exampleConfig okWorld).trace.filter Event.isSetVersion =
      [.setVersion "operator-component" "1.2.0", .setVersion "operator" "4.3.0"] :=
  (construction_order examplePkg exampleConfig okWorld okWorld_succeeds).2.1.2.2.1

end Operator
